import Mathlib

/-!
Verification of the F1 data-collection pipeline (`src/data_collection.py`).

The Python code is shallowly embedded: JSON values become an inductive
`Json`, Python's `None` is `Json.null`, dictionary access and iteration
carry explicit Python exception semantics in `Except PyErr`, and the
retry loop of `_make_request` is driven by an oracle of per-attempt
transport events.
-/

/-- Python exceptions that the embedded code can raise. -/
inductive PyErr where
  | keyError (k : String)
  | typeError
  | attributeError
  | indexError
  | valueError
  deriving DecidableEq

/-- JSON values as produced by `json.loads` / `response.json()`.
Numbers are modelled as integers (no claim involves fractional values);
Python `None` / JSON `null` is `Json.null`. -/
inductive Json where
  | null
  | bool (b : Bool)
  | num (n : Int)
  | str (s : String)
  | arr (xs : List Json)
  | obj (fields : List (String × Json))

/-- Association-list lookup on an object's fields (Python dict key lookup;
dicts have unique keys, so first match is the dict's entry). -/
def objLookup : List (String × Json) → String → Option Json
  | [], _ => none
  | (k, v) :: rest, key => if k == key then some v else objLookup rest key

/-- Python truthiness of a JSON value (`if data:`). -/
def Json.truthy : Json → Bool
  | .null => false
  | .bool b => b
  | .num n => n != 0
  | .str s => s != ""
  | .arr xs => !xs.isEmpty
  | .obj fs => !fs.isEmpty

/-- Python `d[k]` with a string key: dict lookup raising `KeyError` when the
key is absent, `TypeError` on non-dict values. -/
def Json.index : Json → String → Except PyErr Json
  | .obj fs, k =>
    match objLookup fs k with
    | some v => Except.ok v
    | none => Except.error (PyErr.keyError k)
  | _, _ => Except.error PyErr.typeError

/-- Python `d[i]` with an integer index: list indexing raising `IndexError`
out of range; a dict raises `KeyError`, other values `TypeError`. -/
def Json.indexNat : Json → Nat → Except PyErr Json
  | .arr xs, i =>
    match xs.get? i with
    | some v => Except.ok v
    | none => Except.error PyErr.indexError
  | .obj _, i => Except.error (PyErr.keyError (toString i))
  | _, _ => Except.error PyErr.typeError

/-- Python `d.get(k)`: `None` when absent; only dicts have `.get`, other
values raise `AttributeError`. -/
def pyGet : Json → String → Except PyErr Json
  | .obj fs, k => Except.ok ((objLookup fs k).getD Json.null)
  | _, _ => Except.error PyErr.attributeError

/-- Python `d.get(k, default)`. -/
def pyGetD : Json → String → Json → Except PyErr Json
  | .obj fs, k, d => Except.ok ((objLookup fs k).getD d)
  | _, _, _ => Except.error PyErr.attributeError

/-- Whether `pat` is a prefix of `hay` (on characters). -/
def listStartsWith : List Char → List Char → Bool
  | _, [] => true
  | [], _ :: _ => false
  | c :: cs, p :: ps => c == p && listStartsWith cs ps

/-- Whether `pat` occurs contiguously inside `hay` (on characters). -/
def listHasInfix : List Char → List Char → Bool
  | [], pat => pat.isEmpty
  | c :: cs, pat => listStartsWith (c :: cs) pat || listHasInfix cs pat

/-- Substring test, Python's `pat in s` for strings. -/
def strContains (s pat : String) : Bool := listHasInfix s.toList pat.toList

/-- Python `k in d` for a string `k`: key membership on dicts, element
equality on lists, substring on strings, `TypeError` otherwise. -/
def pyContains (key : String) : Json → Except PyErr Bool
  | .obj fs => Except.ok (objLookup fs key).isSome
  | .arr xs =>
    Except.ok (xs.any fun x =>
      match x with
      | .str s => s == key
      | _ => false)
  | .str s => Except.ok (strContains s key)
  | _ => Except.error PyErr.typeError

/-- Python `for x in d`: lists iterate elements, dicts their keys, strings
their characters; other values raise `TypeError`. -/
def pyIter : Json → Except PyErr (List Json)
  | .arr xs => Except.ok xs
  | .obj fs => Except.ok (fs.map fun kv => Json.str kv.1)
  | .str s => Except.ok (s.toList.map fun c => Json.str (String.singleton c))
  | _ => Except.error PyErr.typeError

mutual
/-- Python `repr` of a JSON value (strings quoted, containers rendered). -/
def pyRepr : Json → String
  | .null => "None"
  | .bool true => "True"
  | .bool false => "False"
  | .num n => toString n
  | .str s => "'" ++ s ++ "'"
  | .arr xs => "[" ++ pyReprList xs ++ "]"
  | .obj fs => "\x7b" ++ pyReprFields fs ++ "\x7d"

/-- Comma-separated `repr`s of list elements. -/
def pyReprList : List Json → String
  | [] => ""
  | [x] => pyRepr x
  | x :: y :: rest => pyRepr x ++ ", " ++ pyReprList (y :: rest)

/-- Comma-separated `'key': repr(value)` pairs of dict entries. -/
def pyReprFields : List (String × Json) → String
  | [] => ""
  | [(k, v)] => "'" ++ k ++ "': " ++ pyRepr v
  | (k, v) :: kv :: rest =>
    "'" ++ k ++ "': " ++ pyRepr v ++ ", " ++ pyReprFields (kv :: rest)
end

/-- Python `str` of a JSON value, as used by f-string interpolation. -/
def pyStr : Json → String
  | .str s => s
  | j => pyRepr j

/-- A Python `for` loop appending one flattened record per element,
with exceptions propagating (the loop body runs left to right). -/
def mapExcept (f : α → Except PyErr β) : List α → Except PyErr (List β)
  | [] => Except.ok []
  | x :: xs => do
    let y ← f x
    let ys ← mapExcept f xs
    Except.ok (y :: ys)

@[simp]
theorem ebind_ok (a : α) (f : α → Except PyErr β) :
    (Except.ok a >>= f : Except PyErr β) = f a := rfl

@[simp]
theorem ebind_err (e : PyErr) (f : α → Except PyErr β) :
    (Except.error e >>= f : Except PyErr β) = Except.error e := rfl

theorem mapExcept_length (f : α → Except PyErr β) :
    ∀ (xs : List α) (ys : List β), mapExcept f xs = Except.ok ys →
      ys.length = xs.length := by
  intro xs
  induction xs with
  | nil =>
    intro ys h
    simp only [mapExcept] at h
    cases h
    rfl
  | cons x rest ih =>
    intro ys h
    simp only [mapExcept] at h
    cases hx : f x with
    | error e => rw [hx] at h; simp at h
    | ok y =>
      rw [hx] at h
      cases hrest : mapExcept f rest with
      | error e => rw [hrest] at h; simp at h
      | ok ys0 =>
        rw [hrest] at h
        simp only [ebind_ok] at h
        cases h
        simp [ih ys0 hrest]

/-! ## Transport layer: `F1DataCollector._make_request` (lines 14-46).

A transport attempt either raises a `requests` exception (connection
failure / timeout) or yields an HTTP response. The response body is
represented by its JSON parse result: `some v` when the text parses to
`v`, `none` when it is not valid JSON. -/

/-- An HTTP response as seen by `_make_request`: status code, declared
`Content-Type` header, and the body (by its JSON parse result). -/
structure HttpResponse where
  status : Nat
  contentType : String
  body : Option Json

/-- What `self.session.get(...)` does on one attempt. -/
inductive TransportEvent where
  | raises
  | returns (resp : HttpResponse)

/-- Outcome of the `try` body for one attempt of `_make_request`. -/
inductive AttemptOutcome where
  | caught
  | value (v : Json)
  | uncaught

/-- One iteration of the `try` block (lines 29-38): `session.get` may raise
(caught), `raise_for_status` raises `HTTPError` on a 4xx/5xx status
(caught); a JSON-typed body is parsed with `response.json()`, whose
decode failure is a `requests` exception (caught); any other body is
parsed with `json.loads(response.text)`, whose decode failure is a
`ValueError` that the `except requests.exceptions.RequestException`
clause does not catch (uncaught). -/
def runAttempt : TransportEvent → AttemptOutcome
  | .raises => .caught
  | .returns r =>
    if 400 ≤ r.status then .caught
    else if strContains r.contentType "application/json" then
      match r.body with
      | some v => .value v
      | none => .caught
    else
      match r.body with
      | some v => .value v
      | none => .uncaught

/-- The `for attempt in range(max_retries)` loop of `_make_request`,
structurally recursive on the remaining iteration count (`fuel`, kept
equal to `max_retries - attempt` by the caller). Returns the list of
backoff sleeps performed (in seconds, in order) together with either the
Python exception that escaped or the function's return value. -/
def makeRequestGo (events : Nat → TransportEvent) (max_retries : Nat) :
    Nat → Nat → List Nat × Except PyErr (Option Json)
  | _attempt, 0 => ([], Except.ok none)
  | attempt, fuel + 1 =>
    match runAttempt (events attempt) with
    | .value v => ([], Except.ok (some v))
    | .uncaught => ([], Except.error PyErr.valueError)
    | .caught =>
      if attempt < max_retries - 1 then
        let rest := makeRequestGo events max_retries (attempt + 1) fuel
        (2 ^ attempt :: rest.1, rest.2)
      else
        ([], Except.ok none)

/-- `_make_request` (lines 14-46): run the attempt loop from attempt 0.
The first component is the list of `time.sleep(2 ** attempt)` waits
performed; the second is `some payload` on success, `none` when all
retries are exhausted, or the escaping exception. -/
def _make_request (events : Nat → TransportEvent) (max_retries : Nat := 3) :
    List Nat × Except PyErr (Option Json) :=
  makeRequestGo events max_retries 0 max_retries

/-! ## Ergast adapters (lines 113-240).

Each adapter takes the season year and the value `_make_request` handed
back (`none` for Python `None`, i.e. all retries exhausted) and returns
either the flat record list or the Python exception the flattening
raised. -/

/-- One row of the race-results table (lines 138-154). -/
structure RaceResultRecord where
  season : Int
  round : Json
  race_name : Json
  circuit : Json
  date : Json
  position : Json
  driver_id : Json
  driver_name : String
  driver_number : Json
  team : Json
  grid : Json
  points : Json
  status : Json
  fastest_lap_rank : Json
  fastest_lap_time : Json

/-- The dict literal built for one result entry (lines 138-154); field
expressions are evaluated in source order. -/
def flattenResult (year : Int) (round_num race_name circuit date : Json)
    (result : Json) : Except PyErr RaceResultRecord := do
  let position ← pyGet result "position"
  let driver ← Json.index result "Driver"
  let driver_id ← Json.index driver "driverId"
  let givenName ← Json.index driver "givenName"
  let familyName ← Json.index driver "familyName"
  let driver_number ← pyGet result "number"
  let constructor ← Json.index result "Constructor"
  let team ← Json.index constructor "name"
  let grid ← pyGet result "grid"
  let points ← pyGet result "points"
  let status ← pyGet result "status"
  let fl ← pyGetD result "FastestLap" (Json.obj [])
  let fastest_lap_rank ← pyGet fl "rank"
  let flForTime ← pyGetD result "FastestLap" (Json.obj [])
  let flTime ← pyGetD flForTime "Time" (Json.obj [])
  let fastest_lap_time ← pyGet flTime "time"
  Except.ok
    { season := year
      round := round_num
      race_name := race_name
      circuit := circuit
      date := date
      position := position
      driver_id := driver_id
      driver_name := pyStr givenName ++ " " ++ pyStr familyName
      driver_number := driver_number
      team := team
      grid := grid
      points := points
      status := status
      fastest_lap_rank := fastest_lap_rank
      fastest_lap_time := fastest_lap_time }

/-- The body of the outer `for race in races` loop (lines 131-155). -/
def flattenRace (year : Int) (race : Json) :
    Except PyErr (List RaceResultRecord) := do
  let race_name ← Json.index race "raceName"
  let circuitObj ← Json.index race "Circuit"
  let circuit ← Json.index circuitObj "circuitName"
  let date ← Json.index race "date"
  let round_num ← Json.index race "round"
  let resultsJson ← Json.index race "Results"
  let results ← pyIter resultsJson
  mapExcept (flattenResult year round_num race_name circuit date) results

/-- `get_race_results` (lines 113-160), applied to the transport's result.
`if data and 'MRData' in data:` guards the flattening; the guarded branch
indexes `data['MRData']['RaceTable']['Races']` and flattens every result
of every race, in order. -/
def get_race_results (year : Int) (data : Option Json) :
    Except PyErr (List RaceResultRecord) :=
  match data with
  | none => Except.ok []
  | some d =>
    if d.truthy then do
      let hasKey ← pyContains "MRData" d
      if hasKey then do
        let mr ← Json.index d "MRData"
        let rt ← Json.index mr "RaceTable"
        let racesJson ← Json.index rt "Races"
        let races ← pyIter racesJson
        let lists ← mapExcept (flattenRace year) races
        Except.ok lists.flatten
      else
        Except.ok []
    else
      Except.ok []

/-- One row of the qualifying table (lines 185-197). -/
structure QualiRecord where
  season : Int
  round : Json
  race_name : Json
  position : Json
  driver_id : Json
  driver_name : String
  driver_number : Json
  team : Json
  q1 : Json
  q2 : Json
  q3 : Json

/-- The dict literal built for one qualifying entry (lines 185-197). -/
def flattenQualiResult (year : Int) (round_num race_name : Json)
    (result : Json) : Except PyErr QualiRecord := do
  let position ← pyGet result "position"
  let driver ← Json.index result "Driver"
  let driver_id ← Json.index driver "driverId"
  let givenName ← Json.index driver "givenName"
  let familyName ← Json.index driver "familyName"
  let driver_number ← pyGet result "number"
  let constructor ← Json.index result "Constructor"
  let team ← Json.index constructor "name"
  let q1 ← pyGet result "Q1"
  let q2 ← pyGet result "Q2"
  let q3 ← pyGet result "Q3"
  Except.ok
    { season := year
      round := round_num
      race_name := race_name
      position := position
      driver_id := driver_id
      driver_name := pyStr givenName ++ " " ++ pyStr familyName
      driver_number := driver_number
      team := team
      q1 := q1
      q2 := q2
      q3 := q3 }

/-- The body of the `for race in races` loop of `get_qualifying_results`
(lines 180-198). -/
def flattenQualiRace (year : Int) (race : Json) :
    Except PyErr (List QualiRecord) := do
  let race_name ← Json.index race "raceName"
  let round_num ← Json.index race "round"
  let resultsJson ← Json.index race "QualifyingResults"
  let results ← pyIter resultsJson
  mapExcept (flattenQualiResult year round_num race_name) results

/-- `get_qualifying_results` (lines 162-203). -/
def get_qualifying_results (year : Int) (data : Option Json) :
    Except PyErr (List QualiRecord) :=
  match data with
  | none => Except.ok []
  | some d =>
    if d.truthy then do
      let hasKey ← pyContains "MRData" d
      if hasKey then do
        let mr ← Json.index d "MRData"
        let rt ← Json.index mr "RaceTable"
        let racesJson ← Json.index rt "Races"
        let races ← pyIter racesJson
        let lists ← mapExcept (flattenQualiRace year) races
        Except.ok lists.flatten
      else
        Except.ok []
    else
      Except.ok []

/-- One row of the driver-standings table (lines 225-234). -/
structure StandingRecord where
  season : Int
  round : Json
  position : Json
  driver_id : Json
  driver_name : String
  team : Json
  points : Json
  wins : Json

/-- The dict literal built for one driver-standing entry (lines 225-234);
`team` is `driver_standing['Constructors'][0]['name']`. -/
def flattenDriverStanding (year : Int) (round_num : Json) (ds : Json) :
    Except PyErr StandingRecord := do
  let position ← Json.index ds "position"
  let driver ← Json.index ds "Driver"
  let driver_id ← Json.index driver "driverId"
  let givenName ← Json.index driver "givenName"
  let familyName ← Json.index driver "familyName"
  let constructors ← Json.index ds "Constructors"
  let firstConstructor ← Json.indexNat constructors 0
  let team ← Json.index firstConstructor "name"
  let points ← Json.index ds "points"
  let wins ← Json.index ds "wins"
  Except.ok
    { season := year
      round := round_num
      position := position
      driver_id := driver_id
      driver_name := pyStr givenName ++ " " ++ pyStr familyName
      team := team
      points := points
      wins := wins }

/-- The body of the `for standing in standings_list` loop (lines 222-235):
`round` via `.get`, then one record per entry of `DriverStandings`. -/
def flattenStandingsList (year : Int) (standing : Json) :
    Except PyErr (List StandingRecord) := do
  let round_num ← pyGet standing "round"
  let dsJson ← Json.index standing "DriverStandings"
  let dss ← pyIter dsJson
  mapExcept (flattenDriverStanding year round_num) dss

/-- `get_driver_standings` (lines 205-240): the guarded branch indexes
`data['MRData']['StandingsTable']['StandingsLists']` and flattens every
driver standing of every round, in order. -/
def get_driver_standings (year : Int) (data : Option Json) :
    Except PyErr (List StandingRecord) :=
  match data with
  | none => Except.ok []
  | some d =>
    if d.truthy then do
      let hasKey ← pyContains "MRData" d
      if hasKey then do
        let mr ← Json.index d "MRData"
        let st ← Json.index mr "StandingsTable"
        let slJson ← Json.index st "StandingsLists"
        let sls ← pyIter slJson
        let lists ← mapExcept (flattenStandingsList year) sls
        Except.ok lists.flatten
      else
        Except.ok []
    else
      Except.ok []

/-- The query-parameter dict built by `get_laps` (lines 59-65):
`params = {"session_key": session_key}` and `driver_number` is added only
when it is truthy (`if driver_number:`), so `None` and `0` are both
dropped. -/
def get_laps_params (session_key : Int) (driver_number : Option Int) :
    List (String × Int) :=
  match driver_number with
  | none => [("session_key", session_key)]
  | some d =>
    if d ≠ 0 then
      [("session_key", session_key), ("driver_number", d)]
    else
      [("session_key", session_key)]

/-! ## Season orchestrator: `collect_season_data` (lines 273-327).

The orchestrator is modelled as a function from the year and an
environment — the results the collector's methods hand back — to the
ordered trace of externally visible actions (fetches, CSV saves,
rate-limit sleeps). -/

/-- A row of the sessions table, restricted to the columns the
orchestrator reads (`session_name` for the filter, `session_key` for the
lap/pit queries). -/
structure Session where
  session_name : String
  session_key : Int
  deriving DecidableEq

/-- Which data set a `save_to_csv` call persists. -/
inductive SaveKind where
  | raceResults
  | quali
  | standings
  | sessions
  | laps (session_key : Int)
  | pits (session_key : Int)
  deriving DecidableEq

/-- Externally visible actions of `collect_season_data`, in program
order: adapter calls, `save_to_csv` calls (with filename and record
count) and `time.sleep` calls. -/
inductive TraceAction where
  | fetchRaceResults (year : Int)
  | fetchQualiResults (year : Int)
  | fetchStandings (year : Int)
  | fetchSessions (year : Int)
  | fetchLaps (session_key : Int)
  | fetchPits (session_key : Int)
  | save (kind : SaveKind) (filename : String) (records : Nat)
  | sleep (secs : Nat)
  deriving DecidableEq

/-- The record sets the collector's methods return during one season run
(lap and pit-stop sets per session key are given by their record
counts; a count of 0 is an empty DataFrame). -/
structure SeasonEnv where
  race_results : List RaceResultRecord
  quali_results : List QualiRecord
  standings : List StandingRecord
  sessions : List Session
  laps : Int → Nat
  pit_stops : Int → Nat

/-- The loop body for one sampled race session (lines 311-323): fetch
laps, save if non-empty, fetch pit stops, save if non-empty, sleep one
second. -/
def sessionBlock (year : Int) (env : SeasonEnv) (s : Session) : List TraceAction :=
  [TraceAction.fetchLaps s.session_key]
  ++ (if env.laps s.session_key ≠ 0 then
        [TraceAction.save (SaveKind.laps s.session_key)
          ("laps_" ++ toString year ++ "_session_"
            ++ toString s.session_key ++ ".csv")
          (env.laps s.session_key)]
      else [])
  ++ [TraceAction.fetchPits s.session_key]
  ++ (if env.pit_stops s.session_key ≠ 0 then
        [TraceAction.save (SaveKind.pits s.session_key)
          ("pit_stops_" ++ toString year ++ "_session_"
            ++ toString s.session_key ++ ".csv")
          (env.pit_stops s.session_key)]
      else [])
  ++ [TraceAction.sleep 1]

/-- `collect_season_data` (lines 273-327): the three Ergast fetches, the
three conditional saves, the sessions fetch, and — when sessions are
non-empty — the sessions save followed by the lap/pit loop over
`sessions[sessions['session_name'] == 'Race'].head(3)`. -/
def collect_season_data (year : Int) (env : SeasonEnv) : List TraceAction :=
  [TraceAction.fetchRaceResults year, TraceAction.fetchQualiResults year,
   TraceAction.fetchStandings year]
  ++ (if !env.race_results.isEmpty then
        [TraceAction.save SaveKind.raceResults
          ("race_results_" ++ toString year ++ ".csv")
          env.race_results.length]
      else [])
  ++ (if !env.quali_results.isEmpty then
        [TraceAction.save SaveKind.quali
          ("qualifying_" ++ toString year ++ ".csv")
          env.quali_results.length]
      else [])
  ++ (if !env.standings.isEmpty then
        [TraceAction.save SaveKind.standings
          ("standings_" ++ toString year ++ ".csv")
          env.standings.length]
      else [])
  ++ [TraceAction.fetchSessions year]
  ++ (if !env.sessions.isEmpty then
        TraceAction.save SaveKind.sessions
          ("sessions_" ++ toString year ++ ".csv")
          env.sessions.length
        :: ((env.sessions.filter fun s => s.session_name == "Race").take 3
              |>.flatMap (sessionBlock year env))
      else [])

/-- The session key of a `fetchLaps` action. -/
def lapsKeyOf : TraceAction → Option Int
  | .fetchLaps k => some k
  | _ => none

/-- The session key of a `fetchPits` action. -/
def pitsKeyOf : TraceAction → Option Int
  | .fetchPits k => some k
  | _ => none

/-- The duration of a `sleep` action. -/
def sleepSecsOf : TraceAction → Option Nat
  | .sleep n => some n
  | _ => none

/-! ## Helper lemmas for the retry loop -/

theorem mrGo_value (ev : Nat → TransportEvent) (m a f : Nat) (v : Json)
    (h : runAttempt (ev a) = AttemptOutcome.value v) :
    makeRequestGo ev m a (f + 1) = ([], Except.ok (some v)) := by
  simp [makeRequestGo, h]

theorem mrGo_caught_mid (ev : Nat → TransportEvent) (m a f : Nat)
    (h : runAttempt (ev a) = AttemptOutcome.caught) (hlt : a < m - 1) :
    makeRequestGo ev m a (f + 1)
      = (2 ^ a :: (makeRequestGo ev m (a + 1) f).1,
         (makeRequestGo ev m (a + 1) f).2) := by
  simp [makeRequestGo, h, hlt]

theorem mrGo_caught_last (ev : Nat → TransportEvent) (m a f : Nat)
    (h : runAttempt (ev a) = AttemptOutcome.caught) (hge : ¬ a < m - 1) :
    makeRequestGo ev m a (f + 1) = ([], Except.ok none) := by
  simp [makeRequestGo, h, hge]

/-! ## Claim theorems -/

/-- Claim C2: with the default `max_retries = 3`, after each failed
attempt other than the last, `_make_request` sleeps exactly `2 ^ attempt`
seconds (attempt counted from 0); two network failures followed by a
success return the third attempt's payload after waits `[1, 2]`
(total 3 s = 1 s + 2 s), and three consecutive failures return `None`
with no wait after the final failed attempt (the wait list stays
`[1, 2] = [2 ^ 0, 2 ^ 1]`). -/
theorem make_request_retry_schedule (ev : Nat → TransportEvent) (v : Json)
    (h0 : runAttempt (ev 0) = AttemptOutcome.caught)
    (h1 : runAttempt (ev 1) = AttemptOutcome.caught) :
    (runAttempt (ev 2) = AttemptOutcome.value v →
      _make_request ev 3 = ([1, 2], Except.ok (some v)))
    ∧ (runAttempt (ev 2) = AttemptOutcome.caught →
      _make_request ev 3 = ([1, 2], Except.ok none))
    ∧ ([1, 2] = [2 ^ 0, 2 ^ 1] ∧ 1 + 2 = 3) := by
  have e : _make_request ev 3 = makeRequestGo ev 3 0 (2 + 1) := rfl
  refine ⟨?_, ?_, by norm_num⟩
  · intro h2
    rw [e, mrGo_caught_mid ev 3 0 2 h0 (by norm_num)]
    rw [show (2 : Nat) = 1 + 1 from rfl, mrGo_caught_mid ev 3 1 1 h1 (by norm_num)]
    rw [show (1 : Nat) = 0 + 1 from rfl, mrGo_value ev 3 2 0 v h2]
    norm_num
  · intro h2
    rw [e, mrGo_caught_mid ev 3 0 2 h0 (by norm_num)]
    rw [show (2 : Nat) = 1 + 1 from rfl, mrGo_caught_mid ev 3 1 1 h1 (by norm_num)]
    rw [show (1 : Nat) = 0 + 1 from rfl, mrGo_caught_last ev 3 2 0 h2 (by norm_num)]
    norm_num

/-- A transport schedule whose first two attempts raise a connection
error and whose third returns a JSON-typed payload. -/
def evTwoFailOneOk : Nat → TransportEvent := fun n =>
  if n < 2 then TransportEvent.raises
  else TransportEvent.returns ⟨200, "application/json", some (Json.obj [])⟩

/-- Witness for `make_request_retry_schedule` at a concrete schedule. -/
theorem make_request_retry_schedule_witness :
    runAttempt (evTwoFailOneOk 0) = AttemptOutcome.caught
    ∧ runAttempt (evTwoFailOneOk 1) = AttemptOutcome.caught
    ∧ ((runAttempt (evTwoFailOneOk 2) = AttemptOutcome.value (Json.obj []) →
        _make_request evTwoFailOneOk 3 = ([1, 2], Except.ok (some (Json.obj []))))
      ∧ (runAttempt (evTwoFailOneOk 2) = AttemptOutcome.caught →
        _make_request evTwoFailOneOk 3 = ([1, 2], Except.ok none))
      ∧ ([1, 2] = [2 ^ 0, 2 ^ 1] ∧ 1 + 2 = 3)) :=
  ⟨rfl, rfl, make_request_retry_schedule evTwoFailOneOk (Json.obj []) rfl rfl⟩

/-- Claim C4 (code evaluated at the failing input): a 200 response whose
`Content-Type` does not declare JSON and whose body is not valid JSON
makes `json.loads(response.text)` raise a `json.JSONDecodeError` (a
`ValueError`), which `except requests.exceptions.RequestException` does
not catch — the exception escapes `_make_request` on the first attempt,
with no retry and no `None` result, contradicting the claim that no
exception escapes. -/
theorem make_request_uncaught_decode_error :
    _make_request (fun _ => TransportEvent.returns ⟨200, "text/plain", none⟩) 3
      = ([], Except.error PyErr.valueError) := rfl

/-- Claim C1, counterexample: the payload `{"MRData": {}}` is truthy and
contains the expected top-level key, yet `get_race_results` raises
`KeyError('RaceTable')` instead of returning a record set — so the
adapter is not total over every payload shape. -/
theorem get_race_results_raises_on_malformed :
    get_race_results 2023 (some (Json.obj [("MRData", Json.obj [])]))
      = Except.error (PyErr.keyError "RaceTable") := rfl

/-- Claim C1 as amended: when the transport returns `None`, or the
payload is a dict that lacks the top-level `MRData` key, each Ergast
adapter returns an empty record set without raising; totality over
arbitrary payload shapes does not hold (see the counterexample). -/
theorem ergast_adapters_empty_on_failure (y : Int)
    (d : List (String × Json)) (h : objLookup d "MRData" = none) :
    get_race_results y none = Except.ok []
    ∧ get_qualifying_results y none = Except.ok []
    ∧ get_driver_standings y none = Except.ok []
    ∧ get_race_results y (some (Json.obj d)) = Except.ok []
    ∧ get_qualifying_results y (some (Json.obj d)) = Except.ok []
    ∧ get_driver_standings y (some (Json.obj d)) = Except.ok [] := by
  refine ⟨rfl, rfl, rfl, ?_, ?_, ?_⟩ <;>
  · simp only [get_race_results, get_qualifying_results, get_driver_standings]
    split
    · simp [pyContains, h]
    · rfl

/-- Witness for `ergast_adapters_empty_on_failure` at a concrete
payload lacking `MRData`. -/
theorem ergast_adapters_empty_on_failure_witness :
    objLookup [("foo", Json.null)] "MRData" = none
    ∧ (get_race_results 2024 none = Except.ok []
      ∧ get_qualifying_results 2024 none = Except.ok []
      ∧ get_driver_standings 2024 none = Except.ok []
      ∧ get_race_results 2024 (some (Json.obj [("foo", Json.null)])) = Except.ok []
      ∧ get_qualifying_results 2024 (some (Json.obj [("foo", Json.null)])) = Except.ok []
      ∧ get_driver_standings 2024 (some (Json.obj [("foo", Json.null)])) = Except.ok []) :=
  ⟨rfl, ergast_adapters_empty_on_failure 2024 [("foo", Json.null)] rfl⟩

/-- Claim C9: the flattening is a pure function of the payload and the
parameters, so two calls of the same adapter with identical parameters
against the same upstream snapshot yield identical record sets. -/
theorem adapters_deterministic (y : Int) (p q : Option Json) (h : p = q) :
    get_race_results y p = get_race_results y q
    ∧ get_qualifying_results y p = get_qualifying_results y q
    ∧ get_driver_standings y p = get_driver_standings y q := by
  subst h; exact ⟨rfl, rfl, rfl⟩

/-- Witness for `adapters_deterministic` at a concrete snapshot. -/
theorem adapters_deterministic_witness :
    (some (Json.obj []) : Option Json) = some (Json.obj [])
    ∧ (get_race_results 2024 (some (Json.obj []))
        = get_race_results 2024 (some (Json.obj []))
      ∧ get_qualifying_results 2024 (some (Json.obj []))
        = get_qualifying_results 2024 (some (Json.obj []))
      ∧ get_driver_standings 2024 (some (Json.obj []))
        = get_driver_standings 2024 (some (Json.obj []))) :=
  ⟨rfl, adapters_deterministic 2024 (some (Json.obj [])) (some (Json.obj [])) rfl⟩

/-- Claim C10: `get_laps` builds its query dict with `session_key` and
adds `driver_number` only when truthy, so `driver_number = 0` (the only
falsy int) produces exactly the parameters of an omitted
`driver_number`. -/
theorem get_laps_params_drop_zero (k : Int) :
    get_laps_params k (some 0) = [("session_key", k)]
    ∧ get_laps_params k (some 0) = get_laps_params k none :=
  ⟨rfl, rfl⟩

/-! ## A synthetic 2-races-by-2-results payload for the race adapter -/

/-- First result of the first synthetic race. -/
def resultA1 : Json := Json.obj
  [("position", Json.str "1"),
   ("Driver", Json.obj
     [("driverId", Json.str "max_verstappen"),
      ("givenName", Json.str "Max"),
      ("familyName", Json.str "Verstappen")]),
   ("number", Json.str "1"),
   ("Constructor", Json.obj [("name", Json.str "Red Bull")]),
   ("grid", Json.str "1"),
   ("points", Json.str "25"),
   ("status", Json.str "Finished"),
   ("FastestLap", Json.obj
     [("rank", Json.str "1"),
      ("Time", Json.obj [("time", Json.str "1:32.608")])])]

/-- Second result of the first synthetic race. -/
def resultA2 : Json := Json.obj
  [("position", Json.str "2"),
   ("Driver", Json.obj
     [("driverId", Json.str "perez"),
      ("givenName", Json.str "Sergio"),
      ("familyName", Json.str "Perez")]),
   ("number", Json.str "11"),
   ("Constructor", Json.obj [("name", Json.str "Red Bull")]),
   ("grid", Json.str "5"),
   ("points", Json.str "18"),
   ("status", Json.str "Finished"),
   ("FastestLap", Json.obj
     [("rank", Json.str "2"),
      ("Time", Json.obj [("time", Json.str "1:33.007")])])]

/-- First result of the second synthetic race. -/
def resultB1 : Json := Json.obj
  [("position", Json.str "1"),
   ("Driver", Json.obj
     [("driverId", Json.str "leclerc"),
      ("givenName", Json.str "Charles"),
      ("familyName", Json.str "Leclerc")]),
   ("number", Json.str "16"),
   ("Constructor", Json.obj [("name", Json.str "Ferrari")]),
   ("grid", Json.str "2"),
   ("points", Json.str "25"),
   ("status", Json.str "Finished"),
   ("FastestLap", Json.obj
     [("rank", Json.str "1"),
      ("Time", Json.obj [("time", Json.str "1:31.632")])])]

/-- Second result of the second synthetic race. -/
def resultB2 : Json := Json.obj
  [("position", Json.str "2"),
   ("Driver", Json.obj
     [("driverId", Json.str "norris"),
      ("givenName", Json.str "Lando"),
      ("familyName", Json.str "Norris")]),
   ("number", Json.str "4"),
   ("Constructor", Json.obj [("name", Json.str "McLaren")]),
   ("grid", Json.str "3"),
   ("points", Json.str "18"),
   ("status", Json.str "Finished"),
   ("FastestLap", Json.obj
     [("rank", Json.str "3"),
      ("Time", Json.obj [("time", Json.str "1:32.121")])])]

/-- A synthetic results payload with 2 races of 2 result entries each. -/
def twoByTwoPayload : Json := Json.obj
  [("MRData", Json.obj
    [("RaceTable", Json.obj
      [("Races", Json.arr
        [Json.obj
          [("raceName", Json.str "Bahrain Grand Prix"),
           ("Circuit", Json.obj
             [("circuitName", Json.str "Bahrain International Circuit")]),
           ("date", Json.str "2024-03-02"),
           ("round", Json.str "1"),
           ("Results", Json.arr [resultA1, resultA2])],
         Json.obj
          [("raceName", Json.str "Saudi Arabian Grand Prix"),
           ("Circuit", Json.obj
             [("circuitName", Json.str "Jeddah Corniche Circuit")]),
           ("date", Json.str "2024-03-09"),
           ("round", Json.str "2"),
           ("Results", Json.arr [resultB1, resultB2])]])])])]

/-- Claim C3: on a payload of 2 races with 2 result entries each,
`get_race_results` emits exactly 4 records, each pairing its race's
season/round/race_name/circuit/date with its entry's position, driver
identity, team, grid, points and status, and every `driver_name` is the
given name, a space, and the family name. -/
theorem race_results_two_by_two :
    get_race_results 2024 (some twoByTwoPayload) = Except.ok
      [{ season := 2024, round := Json.str "1",
         race_name := Json.str "Bahrain Grand Prix",
         circuit := Json.str "Bahrain International Circuit",
         date := Json.str "2024-03-02", position := Json.str "1",
         driver_id := Json.str "max_verstappen",
         driver_name := "Max Verstappen", driver_number := Json.str "1",
         team := Json.str "Red Bull", grid := Json.str "1",
         points := Json.str "25", status := Json.str "Finished",
         fastest_lap_rank := Json.str "1",
         fastest_lap_time := Json.str "1:32.608" },
       { season := 2024, round := Json.str "1",
         race_name := Json.str "Bahrain Grand Prix",
         circuit := Json.str "Bahrain International Circuit",
         date := Json.str "2024-03-02", position := Json.str "2",
         driver_id := Json.str "perez",
         driver_name := "Sergio Perez", driver_number := Json.str "11",
         team := Json.str "Red Bull", grid := Json.str "5",
         points := Json.str "18", status := Json.str "Finished",
         fastest_lap_rank := Json.str "2",
         fastest_lap_time := Json.str "1:33.007" },
       { season := 2024, round := Json.str "2",
         race_name := Json.str "Saudi Arabian Grand Prix",
         circuit := Json.str "Jeddah Corniche Circuit",
         date := Json.str "2024-03-09", position := Json.str "1",
         driver_id := Json.str "leclerc",
         driver_name := "Charles Leclerc", driver_number := Json.str "16",
         team := Json.str "Ferrari", grid := Json.str "2",
         points := Json.str "25", status := Json.str "Finished",
         fastest_lap_rank := Json.str "1",
         fastest_lap_time := Json.str "1:31.632" },
       { season := 2024, round := Json.str "2",
         race_name := Json.str "Saudi Arabian Grand Prix",
         circuit := Json.str "Jeddah Corniche Circuit",
         date := Json.str "2024-03-09", position := Json.str "2",
         driver_id := Json.str "norris",
         driver_name := "Lando Norris", driver_number := Json.str "4",
         team := Json.str "McLaren", grid := Json.str "3",
         points := Json.str "18", status := Json.str "Finished",
         fastest_lap_rank := Json.str "3",
         fastest_lap_time := Json.str "1:32.121" }] := rfl

theorem ebind_eq_ok (x : Except PyErr α) (f : α → Except PyErr β) (b : β) :
    (x >>= f) = Except.ok b ↔ ∃ a, x = Except.ok a ∧ f a = Except.ok b := by
  cases x <;> simp

theorem mapExcept_mem (f : α → Except PyErr β) :
    ∀ (xs : List α) (ys : List β), mapExcept f xs = Except.ok ys →
      ∀ b ∈ ys, ∃ a ∈ xs, f a = Except.ok b := by
  intro xs
  induction xs with
  | nil =>
    intro ys h b hb
    simp only [mapExcept] at h
    cases h
    simp at hb
  | cons x rest ih =>
    intro ys h b hb
    simp only [mapExcept, ebind_eq_ok, Except.ok.injEq] at h
    obtain ⟨y, hy, ys0, hys0, hcons⟩ := h
    subst hcons
    rcases List.mem_cons.mp hb with hb | hb
    · exact ⟨x, List.mem_cons_self x rest, hb ▸ hy⟩
    · obtain ⟨a, ha, hfa⟩ := ih ys0 hys0 b hb
      exact ⟨a, List.mem_cons_of_mem x ha, hfa⟩

/-- Claim C5: a result entry (a dict) whose `FastestLap` key is absent
still flattens to a record whose `fastest_lap_rank` and
`fastest_lap_time` are null, a present `FastestLap` object lacking
`Time` yields a null `fastest_lap_time`, and the loop emits exactly one
record per result entry whenever the flattening succeeds — an entry is
never dropped. -/
theorem fastest_lap_missing_tolerated (y : Int) (rnd nm circ dt : Json)
    (res : List (String × Json)) (rec : RaceResultRecord)
    (hok : flattenResult y rnd nm circ dt (Json.obj res) = Except.ok rec) :
    (objLookup res "FastestLap" = none →
      rec.fastest_lap_rank = Json.null ∧ rec.fastest_lap_time = Json.null)
    ∧ (∀ flf, objLookup res "FastestLap" = some (Json.obj flf) →
        objLookup flf "Time" = none → rec.fastest_lap_time = Json.null)
    ∧ (∀ (results : List Json) (out : List RaceResultRecord),
        mapExcept (flattenResult y rnd nm circ dt) results = Except.ok out →
        out.length = results.length) := by
  refine ⟨?_, ?_, fun results out h =>
    mapExcept_length (flattenResult y rnd nm circ dt) results out h⟩ <;>
  · simp only [flattenResult, ebind_eq_ok, Except.ok.injEq] at hok
    obtain ⟨pos, hpos, drv, hdrv, did, hdid, gn, hgn, fam, hfam, num, hnum,
      cons, hcons, team, hteam, grid, hgrid, pts, hpts, st, hst, fl, hfl2,
      rank, hrank, fl2, hfl3, flt, hflt, time, htime, hrec⟩ := hok
    subst hrec
    first
    | · intro hfl
        simp only [pyGetD, hfl, Option.getD, Except.ok.injEq] at hfl2 hfl3
        subst hfl2; subst hfl3
        simp only [pyGet, objLookup, Option.getD, Except.ok.injEq] at hrank
        simp only [pyGetD, objLookup, Option.getD, Except.ok.injEq] at hflt
        subst hflt
        simp only [pyGet, objLookup, Option.getD, Except.ok.injEq] at htime
        subst hrank; subst htime
        exact ⟨rfl, rfl⟩
    | · intro flf hfl hTime
        simp only [pyGetD, hfl, Option.getD, Except.ok.injEq] at hfl3
        subst hfl3
        simp only [pyGetD, hTime, Option.getD, Except.ok.injEq] at hflt
        subst hflt
        simp only [pyGet, objLookup, Option.getD, Except.ok.injEq] at htime
        subst htime
        rfl

/-- A result entry with no `FastestLap` object. -/
def resultNoFastestLap : List (String × Json) :=
  [("position", Json.str "5"),
   ("Driver", Json.obj
     [("driverId", Json.str "hamilton"),
      ("givenName", Json.str "Lewis"),
      ("familyName", Json.str "Hamilton")]),
   ("number", Json.str "44"),
   ("Constructor", Json.obj [("name", Json.str "Mercedes")]),
   ("grid", Json.str "7"),
   ("points", Json.str "10"),
   ("status", Json.str "Finished")]

/-- The record `flattenResult` produces for `resultNoFastestLap`. -/
def recordNoFastestLap : RaceResultRecord :=
  { season := 2024, round := Json.str "1", race_name := Json.str "R",
    circuit := Json.str "C", date := Json.str "D",
    position := Json.str "5", driver_id := Json.str "hamilton",
    driver_name := "Lewis Hamilton", driver_number := Json.str "44",
    team := Json.str "Mercedes", grid := Json.str "7",
    points := Json.str "10", status := Json.str "Finished",
    fastest_lap_rank := Json.null, fastest_lap_time := Json.null }

/-- Witness for `fastest_lap_missing_tolerated`: a concrete entry with no
`FastestLap` flattens successfully and its fastest-lap fields are null. -/
theorem fastest_lap_missing_tolerated_witness :
    flattenResult 2024 (Json.str "1") (Json.str "R") (Json.str "C")
        (Json.str "D") (Json.obj resultNoFastestLap)
      = Except.ok recordNoFastestLap
    ∧ ((objLookup resultNoFastestLap "FastestLap" = none →
        recordNoFastestLap.fastest_lap_rank = Json.null
        ∧ recordNoFastestLap.fastest_lap_time = Json.null)
      ∧ (∀ flf, objLookup resultNoFastestLap "FastestLap"
            = some (Json.obj flf) →
          objLookup flf "Time" = none →
          recordNoFastestLap.fastest_lap_time = Json.null)
      ∧ (∀ (results : List Json) (out : List RaceResultRecord),
          mapExcept (flattenResult 2024 (Json.str "1") (Json.str "R")
              (Json.str "C") (Json.str "D")) results = Except.ok out →
          out.length = results.length)) :=
  ⟨rfl, fastest_lap_missing_tolerated 2024 (Json.str "1") (Json.str "R")
    (Json.str "C") (Json.str "D") resultNoFastestLap recordNoFastestLap rfl⟩

theorem flattenDriverStanding_stamps (y : Int) (rnd : Json) (x : Json)
    (r : StandingRecord)
    (hok : flattenDriverStanding y rnd x = Except.ok r) :
    r.season = y ∧ r.round = rnd := by
  simp only [flattenDriverStanding, ebind_eq_ok, Except.ok.injEq] at hok
  obtain ⟨pos, hpos, drv, hdrv, did, hdid, gn, hgn, fam, hfam, cons, hcons,
    fc, hfc, team, hteam, pts, hpts, w, hw, hrec⟩ := hok
  subst hrec
  exact ⟨rfl, rfl⟩

/-- Claim C6: a flattened driver-standing record carries the season, the
round of its standings list, the entry's position, points, wins and
driver identity, `driver_name` is the given name, a space, and the
family name, `team` is the name of the **first** constructor listed in
the entry, and `flattenStandingsList` emits exactly one record per
driver-standing entry of a round, each stamped with that round. -/
theorem standings_per_round_first_team (y : Int) (rnd : Json)
    (ds : List (String × Json)) (rec : StandingRecord)
    (hok : flattenDriverStanding y rnd (Json.obj ds) = Except.ok rec) :
    rec.season = y ∧ rec.round = rnd
    ∧ (∀ p, objLookup ds "position" = some p → rec.position = p)
    ∧ (∀ p, objLookup ds "points" = some p → rec.points = p)
    ∧ (∀ w, objLookup ds "wins" = some w → rec.wins = w)
    ∧ (∀ drvf d, objLookup ds "Driver" = some (Json.obj drvf) →
        objLookup drvf "driverId" = some d → rec.driver_id = d)
    ∧ (∀ drvf g f, objLookup ds "Driver" = some (Json.obj drvf) →
        objLookup drvf "givenName" = some (Json.str g) →
        objLookup drvf "familyName" = some (Json.str f) →
        rec.driver_name = g ++ " " ++ f)
    ∧ (∀ c0f cs t, objLookup ds "Constructors"
          = some (Json.arr (Json.obj c0f :: cs)) →
        objLookup c0f "name" = some t → rec.team = t)
    ∧ (∀ (sfields : List (String × Json)) (entries : List Json)
        (out : List StandingRecord),
        objLookup sfields "DriverStandings" = some (Json.arr entries) →
        flattenStandingsList y (Json.obj sfields) = Except.ok out →
        out.length = entries.length
        ∧ ∀ r ∈ out, r.round = (objLookup sfields "round").getD Json.null) := by
  simp only [flattenDriverStanding, ebind_eq_ok, Except.ok.injEq] at hok
  obtain ⟨pos, hpos, drv, hdrv, did, hdid, gn, hgn, fam, hfam, cons, hcons,
    fc, hfc, team, hteam, pts, hpts, w, hw, hrec⟩ := hok
  subst hrec
  refine ⟨rfl, rfl, ?_, ?_, ?_, ?_, ?_, ?_, ?_⟩
  · intro p hp
    simp only [Json.index, hp, Except.ok.injEq] at hpos
    subst hpos; rfl
  · intro p hp
    simp only [Json.index, hp, Except.ok.injEq] at hpts
    subst hpts; rfl
  · intro w2 hw2
    simp only [Json.index, hw2, Except.ok.injEq] at hw
    subst hw; rfl
  · intro drvf d hD hd
    simp only [Json.index, hD, Except.ok.injEq] at hdrv
    subst hdrv
    simp only [Json.index, hd, Except.ok.injEq] at hdid
    subst hdid; rfl
  · intro drvf g f hD hg hf
    simp only [Json.index, hD, Except.ok.injEq] at hdrv
    subst hdrv
    simp only [Json.index, hg, Except.ok.injEq] at hgn
    simp only [Json.index, hf, Except.ok.injEq] at hfam
    subst hgn; subst hfam; rfl
  · intro c0f cs t hC ht
    simp only [Json.index, hC, Except.ok.injEq] at hcons
    subst hcons
    simp only [Json.indexNat, List.get?, Except.ok.injEq] at hfc
    subst hfc
    simp only [Json.index, ht, Except.ok.injEq] at hteam
    subst hteam; rfl
  · intro sfields entries out hDS hflat
    simp only [flattenStandingsList, ebind_eq_ok, Except.ok.injEq] at hflat
    obtain ⟨rnd0, hrnd0, dsj, hdsj, dss, hdss, hmap⟩ := hflat
    simp only [pyGet, Except.ok.injEq] at hrnd0
    simp only [Json.index, hDS, Except.ok.injEq] at hdsj
    subst hdsj
    simp only [pyIter, Except.ok.injEq] at hdss
    subst hdss
    refine ⟨mapExcept_length _ entries out hmap, ?_⟩
    intro r hr
    obtain ⟨a, _, hfa⟩ := mapExcept_mem _ entries out hmap r hr
    rw [(flattenDriverStanding_stamps y rnd0 a r hfa).2]
    exact hrnd0.symm

/-- A driver-standing entry listing two constructors, so that the
first-listed-team rule is exercised. -/
def standingEntryTwoTeams : List (String × Json) :=
  [("position", Json.str "1"),
   ("points", Json.str "575"),
   ("wins", Json.str "19"),
   ("Driver", Json.obj
     [("driverId", Json.str "max_verstappen"),
      ("givenName", Json.str "Max"),
      ("familyName", Json.str "Verstappen")]),
   ("Constructors", Json.arr
     [Json.obj [("name", Json.str "Red Bull")],
      Json.obj [("name", Json.str "AlphaTauri")]])]

/-- The record produced for `standingEntryTwoTeams` in round 22 of 2023:
its team is the first listed constructor. -/
def standingRecordTwoTeams : StandingRecord :=
  { season := 2023, round := Json.str "22", position := Json.str "1",
    driver_id := Json.str "max_verstappen",
    driver_name := "Max Verstappen", team := Json.str "Red Bull",
    points := Json.str "575", wins := Json.str "19" }

/-- Witness for `standings_per_round_first_team` at a concrete entry. -/
theorem standings_per_round_first_team_witness :
    flattenDriverStanding 2023 (Json.str "22")
        (Json.obj standingEntryTwoTeams) = Except.ok standingRecordTwoTeams
    ∧ (standingRecordTwoTeams.season = 2023
      ∧ standingRecordTwoTeams.round = Json.str "22"
      ∧ (∀ p, objLookup standingEntryTwoTeams "position" = some p →
          standingRecordTwoTeams.position = p)
      ∧ (∀ p, objLookup standingEntryTwoTeams "points" = some p →
          standingRecordTwoTeams.points = p)
      ∧ (∀ w, objLookup standingEntryTwoTeams "wins" = some w →
          standingRecordTwoTeams.wins = w)
      ∧ (∀ drvf d, objLookup standingEntryTwoTeams "Driver"
            = some (Json.obj drvf) →
          objLookup drvf "driverId" = some d →
          standingRecordTwoTeams.driver_id = d)
      ∧ (∀ drvf g f, objLookup standingEntryTwoTeams "Driver"
            = some (Json.obj drvf) →
          objLookup drvf "givenName" = some (Json.str g) →
          objLookup drvf "familyName" = some (Json.str f) →
          standingRecordTwoTeams.driver_name = g ++ " " ++ f)
      ∧ (∀ c0f cs t, objLookup standingEntryTwoTeams "Constructors"
            = some (Json.arr (Json.obj c0f :: cs)) →
          objLookup c0f "name" = some t → standingRecordTwoTeams.team = t)
      ∧ (∀ (sfields : List (String × Json)) (entries : List Json)
          (out : List StandingRecord),
          objLookup sfields "DriverStandings" = some (Json.arr entries) →
          flattenStandingsList 2023 (Json.obj sfields) = Except.ok out →
          out.length = entries.length
          ∧ ∀ r ∈ out,
              r.round = (objLookup sfields "round").getD Json.null)) :=
  ⟨rfl, standings_per_round_first_team 2023 (Json.str "22")
    standingEntryTwoTeams standingRecordTwoTeams rfl⟩

/-- The save kind of a `save` action. -/
def saveKindOf : TraceAction → Option SaveKind
  | .save k _ _ => some k
  | _ => none

theorem sessionBlock_lapsKeys (year : Int) (env : SeasonEnv) (s : Session) :
    (sessionBlock year env s).filterMap lapsKeyOf = [s.session_key] := by
  unfold sessionBlock
  by_cases h1 : env.laps s.session_key ≠ 0 <;>
    by_cases h2 : env.pit_stops s.session_key ≠ 0 <;>
      simp [h1, h2, lapsKeyOf]

theorem sessionBlock_pitsKeys (year : Int) (env : SeasonEnv) (s : Session) :
    (sessionBlock year env s).filterMap pitsKeyOf = [s.session_key] := by
  unfold sessionBlock
  by_cases h1 : env.laps s.session_key ≠ 0 <;>
    by_cases h2 : env.pit_stops s.session_key ≠ 0 <;>
      simp [h1, h2, pitsKeyOf]

theorem sessionBlock_sleeps (year : Int) (env : SeasonEnv) (s : Session) :
    (sessionBlock year env s).filterMap sleepSecsOf = [1] := by
  unfold sessionBlock
  by_cases h1 : env.laps s.session_key ≠ 0 <;>
    by_cases h2 : env.pit_stops s.session_key ≠ 0 <;>
      simp [h1, h2, sleepSecsOf]

theorem flatMap_blocks_filterMap (year : Int) (env : SeasonEnv)
    (g : TraceAction → Option α) (one : Session → α)
    (hblock : ∀ s, (sessionBlock year env s).filterMap g = [one s]) :
    ∀ l : List Session,
      (l.flatMap (sessionBlock year env)).filterMap g = l.map one := by
  intro l
  induction l with
  | nil => simp
  | cons s rest ih =>
    simp [List.flatMap_cons, List.filterMap_append, hblock s, ih]

theorem sessionBlock_saveKinds (year : Int) (env : SeasonEnv) (s : Session) :
    (sessionBlock year env s).filterMap saveKindOf
      = (if env.laps s.session_key ≠ 0 then [SaveKind.laps s.session_key]
          else [])
        ++ (if env.pit_stops s.session_key ≠ 0 then
              [SaveKind.pits s.session_key] else []) := by
  unfold sessionBlock
  by_cases h1 : env.laps s.session_key ≠ 0 <;>
    by_cases h2 : env.pit_stops s.session_key ≠ 0 <;>
      simp [h1, h2, saveKindOf]

theorem ergastKind_not_in_blocks (year : Int) (env : SeasonEnv)
    (k : SaveKind) (hl : ∀ key, k ≠ SaveKind.laps key)
    (hp : ∀ key, k ≠ SaveKind.pits key) (l : List Session) :
    k ∉ (l.flatMap (sessionBlock year env)).filterMap saveKindOf := by
  induction l with
  | nil => simp
  | cons s rest ih =>
    simp only [List.flatMap_cons, List.filterMap_append, List.mem_append,
      sessionBlock_saveKinds year env s]
    intro hmem
    rcases hmem with (hmem | hmem) | hmem
    · have he : k = SaveKind.laps s.session_key := by
        split at hmem <;> simp_all
      exact hl _ he
    · have he : k = SaveKind.pits s.session_key := by
        split at hmem <;> simp_all
      exact hp _ he
    · exact ih hmem

theorem savesOf_collect (year : Int) (env : SeasonEnv) :
    (collect_season_data year env).filterMap saveKindOf
    = (if !env.race_results.isEmpty then [SaveKind.raceResults] else [])
      ++ (if !env.quali_results.isEmpty then [SaveKind.quali] else [])
      ++ (if !env.standings.isEmpty then [SaveKind.standings] else [])
      ++ (if !env.sessions.isEmpty then
            SaveKind.sessions ::
              (((env.sessions.filter fun s => s.session_name == "Race").take 3
                |>.flatMap (sessionBlock year env)).filterMap saveKindOf)
          else []) := by
  unfold collect_season_data
  by_cases h1 : !env.race_results.isEmpty <;>
    by_cases h2 : !env.quali_results.isEmpty <;>
      by_cases h3 : !env.standings.isEmpty <;>
        by_cases h4 : !env.sessions.isEmpty <;>
          simp [h1, h2, h3, h4, List.filterMap_append, saveKindOf]

/-- Claim C7: with a non-empty sessions table, the orchestrator fetches
laps and pit stops exactly for the first three sessions (in order)
whose `session_name` is `"Race"` — so 10 race sessions yield exactly 3
lap queries — and sleeps one second once per sampled session. -/
theorem orchestrator_samples_three_races (year : Int) (env : SeasonEnv)
    (h : env.sessions ≠ []) :
    ((collect_season_data year env).filterMap lapsKeyOf
      = ((env.sessions.filter fun s => s.session_name == "Race").take 3).map
          (fun s => s.session_key))
    ∧ ((collect_season_data year env).filterMap pitsKeyOf
      = ((env.sessions.filter fun s => s.session_name == "Race").take 3).map
          (fun s => s.session_key))
    ∧ ((env.sessions.filter fun s => s.session_name == "Race").length = 10 →
        ((collect_season_data year env).filterMap lapsKeyOf).length = 3)
    ∧ ((collect_season_data year env).filterMap sleepSecsOf
      = ((env.sessions.filter fun s => s.session_name == "Race").take 3).map
          (fun _ => 1)) := by
  have hne : env.sessions.isEmpty = false := by
    simpa [List.isEmpty_iff] using h
  have hl := flatMap_blocks_filterMap year env lapsKeyOf
    (fun s => s.session_key) (sessionBlock_lapsKeys year env)
  have hp := flatMap_blocks_filterMap year env pitsKeyOf
    (fun s => s.session_key) (sessionBlock_pitsKeys year env)
  have hs := flatMap_blocks_filterMap year env sleepSecsOf
    (fun _ => 1) (sessionBlock_sleeps year env)
  refine ⟨?_, ?_, ?_, ?_⟩
  case _ =>
    unfold collect_season_data
    by_cases h1 : !env.race_results.isEmpty <;>
      by_cases h2 : !env.quali_results.isEmpty <;>
        by_cases h3 : !env.standings.isEmpty <;>
          simp [h1, h2, h3, hne, List.filterMap_append, lapsKeyOf, hl]
  case _ =>
    unfold collect_season_data
    by_cases h1 : !env.race_results.isEmpty <;>
      by_cases h2 : !env.quali_results.isEmpty <;>
        by_cases h3 : !env.standings.isEmpty <;>
          simp [h1, h2, h3, hne, List.filterMap_append, pitsKeyOf, hp]
  case _ =>
    intro h10
    unfold collect_season_data
    by_cases h1 : !env.race_results.isEmpty <;>
      by_cases h2 : !env.quali_results.isEmpty <;>
        by_cases h3 : !env.standings.isEmpty <;>
          simp [h1, h2, h3, hne, List.filterMap_append, lapsKeyOf, hl,
            List.length_take, h10]
  case _ =>
    unfold collect_season_data
    by_cases h1 : !env.race_results.isEmpty <;>
      by_cases h2 : !env.quali_results.isEmpty <;>
        by_cases h3 : !env.standings.isEmpty <;>
          simp [h1, h2, h3, hne, List.filterMap_append, sleepSecsOf, hs]

/-- A season environment with ten `"Race"` sessions. -/
def envTenRaces : SeasonEnv :=
  { race_results := [], quali_results := [], standings := [],
    sessions := (List.range 10).map fun i => ⟨"Race", Int.ofNat (9000 + i)⟩,
    laps := fun _ => 0, pit_stops := fun _ => 0 }

/-- Witness for `orchestrator_samples_three_races`: with ten race
sessions, exactly the first three session keys are queried. -/
theorem orchestrator_samples_three_races_witness :
    envTenRaces.sessions ≠ []
    ∧ (((collect_season_data 2024 envTenRaces).filterMap lapsKeyOf
        = ((envTenRaces.sessions.filter fun s =>
            s.session_name == "Race").take 3).map (fun s => s.session_key))
      ∧ ((collect_season_data 2024 envTenRaces).filterMap pitsKeyOf
        = ((envTenRaces.sessions.filter fun s =>
            s.session_name == "Race").take 3).map (fun s => s.session_key))
      ∧ ((envTenRaces.sessions.filter fun s =>
            s.session_name == "Race").length = 10 →
          ((collect_season_data 2024 envTenRaces).filterMap lapsKeyOf).length
            = 3)
      ∧ ((collect_season_data 2024 envTenRaces).filterMap sleepSecsOf
        = ((envTenRaces.sessions.filter fun s =>
            s.session_name == "Race").take 3).map (fun _ => 1))) :=
  ⟨by simp [envTenRaces, List.range_succ],
   orchestrator_samples_three_races 2024 envTenRaces
     (by simp [envTenRaces, List.range_succ])⟩

/-- Claim C8: for every year and every combination of adapter results,
the orchestrator's trace is a well-defined finite action list (it always
runs to completion): all three Ergast fetches and the sessions fetch
occur unconditionally — an empty result for one does not prevent the
others — and each of the race-results, qualifying and standings sets is
saved exactly when it is non-empty, with its full record count. -/
theorem orchestrator_total_and_independent (year : Int) (env : SeasonEnv) :
    TraceAction.fetchRaceResults year ∈ collect_season_data year env
    ∧ TraceAction.fetchQualiResults year ∈ collect_season_data year env
    ∧ TraceAction.fetchStandings year ∈ collect_season_data year env
    ∧ TraceAction.fetchSessions year ∈ collect_season_data year env
    ∧ (SaveKind.raceResults
        ∈ (collect_season_data year env).filterMap saveKindOf
      ↔ env.race_results ≠ [])
    ∧ (SaveKind.quali
        ∈ (collect_season_data year env).filterMap saveKindOf
      ↔ env.quali_results ≠ [])
    ∧ (SaveKind.standings
        ∈ (collect_season_data year env).filterMap saveKindOf
      ↔ env.standings ≠ [])
    ∧ (env.race_results ≠ [] →
        TraceAction.save SaveKind.raceResults
          ("race_results_" ++ toString year ++ ".csv")
          env.race_results.length ∈ collect_season_data year env)
    ∧ (env.quali_results ≠ [] →
        TraceAction.save SaveKind.quali
          ("qualifying_" ++ toString year ++ ".csv")
          env.quali_results.length ∈ collect_season_data year env)
    ∧ (env.standings ≠ [] →
        TraceAction.save SaveKind.standings
          ("standings_" ++ toString year ++ ".csv")
          env.standings.length ∈ collect_season_data year env) := by
  have hblR := ergastKind_not_in_blocks year env SaveKind.raceResults
    (by intro key h; cases h) (by intro key h; cases h)
    ((env.sessions.filter fun s => s.session_name == "Race").take 3)
  have hblQ := ergastKind_not_in_blocks year env SaveKind.quali
    (by intro key h; cases h) (by intro key h; cases h)
    ((env.sessions.filter fun s => s.session_name == "Race").take 3)
  have hblS := ergastKind_not_in_blocks year env SaveKind.standings
    (by intro key h; cases h) (by intro key h; cases h)
    ((env.sessions.filter fun s => s.session_name == "Race").take 3)
  refine ⟨?_, ?_, ?_, ?_, ?_, ?_, ?_, ?_, ?_, ?_⟩
  · simp [collect_season_data]
  · simp [collect_season_data]
  · simp [collect_season_data]
  · simp [collect_season_data]
  · rw [savesOf_collect]
    by_cases h1 : !env.race_results.isEmpty <;>
      by_cases h4 : !env.sessions.isEmpty <;>
        simp_all [List.mem_append, List.isEmpty_iff] <;> assumption
  · rw [savesOf_collect]
    by_cases h2 : !env.quali_results.isEmpty <;>
      by_cases h4 : !env.sessions.isEmpty <;>
        simp_all [List.mem_append, List.isEmpty_iff] <;> assumption
  · rw [savesOf_collect]
    by_cases h3 : !env.standings.isEmpty <;>
      by_cases h4 : !env.sessions.isEmpty <;>
        simp_all [List.mem_append, List.isEmpty_iff] <;> assumption
  · intro hr
    have h1 : (!env.race_results.isEmpty) = true := by
      simp [List.isEmpty_iff, hr]
    simp [collect_season_data, h1]
  · intro hr
    have h2 : (!env.quali_results.isEmpty) = true := by
      simp [List.isEmpty_iff, hr]
    simp [collect_season_data, h2]
  · intro hr
    have h3 : (!env.standings.isEmpty) = true := by
      simp [List.isEmpty_iff, hr]
    simp [collect_season_data, h3]
